import Mathlib

/-!
Verification of the PhantomDNS DNS query router and proxy-resolution layer.

The definitions below are shallow embeddings of the Go functions in
`src/main.go`, `src/blessnet.go` and the configuration/node-API files:
pure Go helpers become Lean functions, the mutable `auth` record of the
Blessnet client becomes explicit state passing, wall-clock time becomes a
`Nat` parameter, and network effects (upstream DNS exchanges, worker HTTP
responses) become explicit inputs describing what each remote party would
answer.  Strings are Lean `String`s; the Go standard-library helpers
`strings.HasSuffix`, `strings.TrimSuffix` and `strings.Contains` are
re-implemented structurally over `String.data` so that all definitions
evaluate by kernel reduction.
-/

namespace PhantomDNS

/-- Go `strings.HasSuffix s suffix`: `s` ends with `suffix`. -/
def hasSuffix (s sfx : String) : Bool :=
  List.isSuffixOf sfx.data s.data

/-- Go `strings.TrimSuffix s "."` as used in `handleDNSRequest`
(src/main.go line 38): drop one trailing dot when present. -/
def trimTrailingDot (s : String) : String :=
  if hasSuffix s "." then ⟨s.data.dropLast⟩ else s

/-- Helper for Go `strings.Contains`: does the character list contain
`needle` as a contiguous sublist? -/
def containsSubstrAux (needle : List Char) : List Char → Bool
  | [] => needle.isEmpty
  | c :: rest => List.isPrefixOf needle (c :: rest) || containsSubstrAux needle rest

/-- Go `strings.Contains s sub`. -/
def containsSubstr (s sub : String) : Bool :=
  containsSubstrAux sub.data s.data

/-- `isProxyDomain` (src/main.go lines 54-63): scans `config.ProxyDomains`
and reports a match on a plain `strings.HasSuffix` test.  The suffix list
is passed explicitly here in place of the global `config`. -/
def isProxyDomain (proxyDomains : List String) (domain : String) : Bool :=
  proxyDomains.any (fun d => hasSuffix domain d)

/-- Lower-casing of a whole string (spec-side normalization). -/
def lowerStr (s : String) : String :=
  ⟨s.data.map Char.toLower⟩

/-- The matching rule as the specification words it (spec §3, §4.1, §8):
the domain equals the suffix, or ends with `"." ++ suffix`, compared
case-insensitively.  This is the spec-side definition used to compare
against `isProxyDomain`; it is NOT a translation of the Go code. -/
def specMatchesSuffix (d s : String) : Bool :=
  lowerStr d == lowerStr s || hasSuffix (lowerStr d) ("." ++ lowerStr s)

/-- Spec-side classifier: Proxied iff some configured suffix matches per
`specMatchesSuffix`. -/
def specClassifyProxied (S : List String) (d : String) : Bool :=
  S.any (specMatchesSuffix d)

/-! ## Upstream resolver (`forwardToUpstream`, src/main.go lines 81-100)

One upstream nameserver's behaviour for the query at hand is either a
transport error (`c.Exchange` returned a non-nil error) or a reply whose
answer section holds a list of records; answer records are kept opaque as
strings.  `forwardAux` returns the answers appended to the reply together
with the trace of upstream indices contacted, in order. -/

/-- What a single configured upstream returns for the query. -/
inductive UpstreamReply
  | err
  | answers (recs : List String)
deriving DecidableEq, Repr

/-- An upstream attempt that the Go loop skips past: a transport error or
a reply with an empty answer section. -/
def failedReply : UpstreamReply → Bool
  | .err => true
  | .answers recs => recs.isEmpty

/-- Loop body of `forwardToUpstream`: walk the configured nameservers in
order starting at index `i`; on error or empty answer continue; on the
first non-empty answer return those records.  The second component is the
ordered list of indices of upstreams actually contacted. -/
def forwardAux : Nat → List UpstreamReply → List String × List Nat
  | _, [] => ([], [])
  | i, r :: rest =>
    match r with
    | .err =>
      let p := forwardAux (i + 1) rest
      (p.1, i :: p.2)
    | .answers recs =>
      if recs.isEmpty then
        let p := forwardAux (i + 1) rest
        (p.1, i :: p.2)
      else (recs, [i])

/-- `forwardToUpstream` (src/main.go lines 81-100), with the per-upstream
replies for this query supplied explicitly. -/
def forwardToUpstream (ups : List UpstreamReply) : List String × List Nat :=
  forwardAux 0 ups

/-! ## Worker invocation client (`fetchFromWorker`, src/main.go lines 146-220)

Only the response-classification tail of the function (lines 200-219) is
behaviour the claims speak about; request construction is I/O plumbing.
The Go function returns `([]byte, error)`; the non-200 branch always
returns the error `"worker returned status <code>"`, and the 403 +
"Cloudflare" sub-branch only emits a log line before falling through to
that same return.  The model returns the result together with the list of
special-case log lines emitted by the non-200 branch. -/

structure WorkerHTTPResponse where
  statusCode : Nat
  body : String
deriving DecidableEq, Repr

/-- The `([]byte, error)` result of `fetchFromWorker` once a response was
read: either the body, or the error string built by `fmt.Errorf`. -/
inductive WorkerResult
  | ok (body : String)
  | fetchError (msg : String)
deriving DecidableEq, Repr

/-- Response classification of `fetchFromWorker` (src/main.go lines
209-219).  `resp.StatusCode != http.StatusOK` yields the generic error;
inside that branch, a 403 whose body contains "Cloudflare" additionally
logs a detection message — and nothing else. -/
def classifyWorkerResponse (resp : WorkerHTTPResponse) : WorkerResult × List String :=
  if resp.statusCode ≠ 200 then
    let logs :=
      if resp.statusCode = 403 ∧ containsSubstr resp.body "Cloudflare" = true then
        ["Detected Cloudflare protection, trying alternative worker..."]
      else []
    (.fetchError ("worker returned status " ++ toString resp.statusCode), logs)
  else (.ok resp.body, [])

/-! ## Session cache (`Authenticate` / `RefreshAuth`, src/blessnet.go lines 90-116)

The mutable `b.auth : AuthConfig` record becomes explicit state; `time.Now()`
becomes a `Nat` parameter (seconds).  `Authenticate` checks
`b.auth.Token != "" && b.auth.ExpiresAt.After(time.Now())`; when the check
fails it stores the simulated token with a 24-hour expiry.  The Go method
returns only `error` (always nil); the credential lives in the state.
`exchanged` records whether the issuance branch ran. -/

structure AuthState where
  token : String
  expiresAt : Nat
deriving DecidableEq, Repr

/-- The fake token the demo code issues:
`"simulated_token_" + time.Now().Format(time.RFC3339)`, with the formatted
timestamp rendered from the `Nat` clock. -/
def simulatedToken (now : Nat) : String :=
  "simulated_token_" ++ toString now

/-- 24 hours in seconds, the validity window `time.Now().Add(24 * time.Hour)`
gives the fake token. -/
def validityWindow : Nat := 24 * 60 * 60

structure AuthResult where
  state : AuthState
  exchanged : Bool
deriving DecidableEq, Repr

/-- `Authenticate` (src/blessnet.go lines 90-108). -/
def Authenticate (now : Nat) (st : AuthState) : AuthResult :=
  if st.token ≠ "" ∧ now < st.expiresAt then
    ⟨st, false⟩
  else
    ⟨⟨simulatedToken now, now + validityWindow⟩, true⟩

/-- `Authenticate` together with the configuration credentials it could
have consulted.  Faithful to src/blessnet.go lines 90-108: the method never
reads `BlessnetAPIKey`/`BlessnetAPISecret` and has no failing return path,
so the `Except` error branch is never taken. -/
def AuthenticateWithConfig (apiKey apiSecret : String) (now : Nat) (st : AuthState) :
    Except String AuthResult :=
  .ok (Authenticate now st)

/-- `RefreshAuth` (src/blessnet.go lines 111-116): clear the token, then
run `Authenticate` again. -/
def RefreshAuth (now : Nat) (st : AuthState) : AuthResult :=
  Authenticate now { st with token := "" }

/-! ## Query router (`handleDNSRequest`, src/main.go lines 25-51)

DNS messages keep only the fields the handler touches.  `dns.Msg.SetReply`
copies id and opcode from the request, resets the response code to
success (0), and copies the first question of the request; the fresh reply
message starts with an empty answer section.  Record types cover the
constants the claims mention; answer records stay opaque strings.
`handleProxiedDomain` (lines 66-78) appends the fixed placeholder record
`<name> A 192.168.1.1` and performs no worker-endpoint invocation; its
model carries the ranked endpoint list and returns the trace of endpoint
indices contacted, which is always empty.  The `Env` record stands for the
global `config` plus what each configured upstream would reply to a given
question. -/

inductive RType
  | A
  | AAAA
  | TXT
  | MX
  | NS
deriving DecidableEq, Repr

structure Question where
  name : String
  qtype : RType
deriving DecidableEq, Repr

structure DNSMsg where
  id : Nat
  opcode : Nat
  rcode : Nat
  question : List Question
  answer : List String
deriving DecidableEq, Repr

/-- `m.SetReply(r)` from the dns library, restricted to the modelled
fields: reply id/opcode copied, `Rcode = RcodeSuccess` (0), question set
to the request's first question, fresh (empty) answer section. -/
def setReply (r : DNSMsg) : DNSMsg :=
  { id := r.id, opcode := r.opcode, rcode := 0,
    question := r.question.take 1, answer := [] }

/-- `handleProxiedDomain` (src/main.go lines 66-78): appends the
placeholder A record and contacts no worker endpoint — the returned trace
of contacted endpoint indices is empty whatever the ranked list holds. -/
def handleProxiedDomain (endpoints : List String) (m : DNSMsg) (q : Question) :
    DNSMsg × List Nat :=
  ({ m with answer := m.answer ++ [q.name ++ " A 192.168.1.1"] }, [])

/-- Ambient configuration and network behaviour for one handled request:
the proxy-domain suffix list, the ranked worker endpoints, and the reply
each configured upstream nameserver (in order) would give to a question. -/
structure Env where
  proxyDomains : List String
  endpoints : List String
  upstreamFor : Question → List UpstreamReply

/-- Body of the per-question `switch q.Qtype` (src/main.go lines 33-46):
type-A questions are classified on the trailing-dot-stripped name and
dispatched to the proxied handler or the upstream forwarder; any other
type falls through the switch untouched. -/
def processQuestion (env : Env) (m : DNSMsg) (q : Question) : DNSMsg :=
  if q.qtype = RType.A then
    if isProxyDomain env.proxyDomains (trimTrailingDot q.name) = true then
      (handleProxiedDomain env.endpoints m q).1
    else
      { m with answer := m.answer ++ (forwardToUpstream (env.upstreamFor q)).1 }
  else m

/-- `handleDNSRequest` (src/main.go lines 25-51).  The second component
counts `w.WriteMsg` calls: exactly one, made unconditionally at line 50.
Only `OpcodeQuery` (0) requests have their questions processed. -/
def handleDNSRequest (env : Env) (r : DNSMsg) : DNSMsg × Nat :=
  let m0 := setReply r
  let m := if r.opcode = 0 then List.foldl (processQuestion env) m0 m0.question else m0
  (m, 1)

/-! ## Helper lemmas -/

/-- Walking a block of failing upstreams contacts each of them once and
passes control to the remainder of the list. -/
theorem forwardAux_fails (fails : List UpstreamReply)
    (hf : ∀ r ∈ fails, failedReply r = true) (i : Nat) (rest : List UpstreamReply) :
    forwardAux i (fails ++ rest) =
      ((forwardAux (i + fails.length) rest).1,
        List.range' i fails.length ++ (forwardAux (i + fails.length) rest).2) := by
  induction fails generalizing i with
  | nil => simp [List.range']
  | cons r rs ih =>
    have hr : failedReply r = true := hf r (by simp)
    have hrs : ∀ x ∈ rs, failedReply x = true := fun x hx => hf x (by simp [hx])
    have harith : i + 1 + rs.length = i + (rs.length + 1) := by omega
    cases r with
    | err =>
      simp only [List.cons_append, forwardAux, List.append_eq, ih hrs (i + 1),
        List.length_cons, List.range'_succ, harith]
    | answers recs =>
      have hempty : recs.isEmpty = true := hr
      simp only [List.cons_append, forwardAux, hempty, if_pos, List.append_eq,
        List.length_cons, List.range'_succ, ih hrs (i + 1), harith]

/-- The simulated token issued by the authentication exchange is never the
cleared (empty) credential. -/
theorem simulatedToken_ne_empty (now : Nat) : simulatedToken now ≠ "" := by
  intro h
  have hd : (simulatedToken now).data = [] := by rw [h]
  rw [simulatedToken, String.data_append] at hd
  rw [List.append_eq_nil] at hd
  exact absurd hd.1 (by decide)

/-- A forced refresh always runs the issuance branch: the cleared token
fails the validity check, so the result is the fresh simulated token with
a full validity window. -/
theorem RefreshAuth_eq (now : Nat) (st : AuthState) :
    RefreshAuth now st = ⟨⟨simulatedToken now, now + validityWindow⟩, true⟩ := by
  simp [RefreshAuth, Authenticate]

/-! ## Claim theorems -/

/-- C1 counterexample: the claim's matching rule fails on the code.
`isProxyDomain` classifies `notblocked.org` as Proxied under suffix set
`["blocked.org"]` although the spec rule (equality or a `.`-separated
suffix, case-insensitive) rejects it; and it classifies `BLOCKED.ORG` as
Passthrough although the spec rule, being case-insensitive, accepts it. -/
theorem isProxyDomain_spec_counterexample :
    (isProxyDomain ["blocked.org"] "notblocked.org" = true ∧
      specClassifyProxied ["blocked.org"] "notblocked.org" = false) ∧
    (isProxyDomain ["blocked.org"] "BLOCKED.ORG" = false ∧
      specClassifyProxied ["blocked.org"] "BLOCKED.ORG" = true) := by
  decide

/-- C1 (amended): `isProxyDomain` returns Proxied exactly when the domain
ends with some configured suffix as a raw, case-sensitive string suffix
(no label-boundary dot and no case normalization); with an empty suffix
set every domain is Passthrough. -/
theorem isProxyDomain_iff_rawSuffix (S : List String) (d : String) :
    (isProxyDomain S d = true ↔ ∃ s ∈ S, hasSuffix d s = true) ∧
    isProxyDomain [] d = false := by
  refine ⟨?_, rfl⟩
  simp [isProxyDomain, List.any_eq_true]

/-- C2: `fetchFromWorker` has no distinct Blocked outcome.  At a 403
response whose body carries the Cloudflare challenge marker it returns
the very same generic error value as at a 403 without the marker; the
marker is only detected in a log line. -/
theorem classifyWorker403_no_distinct_blocked :
    (classifyWorkerResponse ⟨403, "Attention Required! | Cloudflare"⟩).1 =
      (classifyWorkerResponse ⟨403, "access denied"⟩).1 ∧
    (classifyWorkerResponse ⟨403, "Attention Required! | Cloudflare"⟩).1 =
      WorkerResult.fetchError "worker returned status 403" ∧
    (classifyWorkerResponse ⟨403, "Attention Required! | Cloudflare"⟩).2 =
      ["Detected Cloudflare protection, trying alternative worker..."] ∧
    (classifyWorkerResponse ⟨403, "access denied"⟩).2 = [] := by
  decide

/-- C3: when the first `fails.length` upstreams fail (transport error or
empty answer set) and the next upstream returns a non-empty record list,
`forwardToUpstream` returns exactly those records, contacts exactly the
upstreams at indices `0 .. fails.length` in order (so none after the
successful one), and contacts no upstream twice. -/
theorem forwardToUpstream_firstSuccess (fails : List UpstreamReply)
    (recs : List String) (rest : List UpstreamReply)
    (hf : ∀ r ∈ fails, failedReply r = true) (hr : recs ≠ []) :
    (forwardToUpstream (fails ++ UpstreamReply.answers recs :: rest)).1 = recs ∧
    (forwardToUpstream (fails ++ UpstreamReply.answers recs :: rest)).2 =
      List.range (fails.length + 1) ∧
    (forwardToUpstream (fails ++ UpstreamReply.answers recs :: rest)).2.Nodup ∧
    ∀ j ∈ (forwardToUpstream (fails ++ UpstreamReply.answers recs :: rest)).2,
      j ≤ fails.length := by
  obtain ⟨a, as, rfl⟩ := List.exists_cons_of_ne_nil hr
  have h1 : forwardAux (0 + fails.length) (UpstreamReply.answers (a :: as) :: rest) =
      (a :: as, [0 + fails.length]) := by
    simp [forwardAux]
  have key := forwardAux_fails fails hf 0 (UpstreamReply.answers (a :: as) :: rest)
  rw [h1] at key
  have hres : forwardToUpstream (fails ++ UpstreamReply.answers (a :: as) :: rest) =
      (a :: as, List.range (fails.length + 1)) := by
    rw [forwardToUpstream, key, List.range_succ, List.range_eq_range']
    simp
  refine ⟨by rw [hres], by rw [hres], ?_, ?_⟩
  · rw [hres]
    exact List.nodup_range _
  · intro j hj
    rw [hres] at hj
    simp only [List.mem_range] at hj
    omega

/-- C3 witness: two failing upstreams (a transport error, then an empty
answer) followed by a successful one; the resolver returns the third
upstream's records and contacts exactly upstreams 0, 1, 2. -/
theorem forwardToUpstream_firstSuccess_witness :
    (∀ r ∈ [UpstreamReply.err, UpstreamReply.answers []], failedReply r = true) ∧
    (["93.184.216.34"] : List String) ≠ [] ∧
    (forwardToUpstream ([UpstreamReply.err, UpstreamReply.answers []] ++
        UpstreamReply.answers ["93.184.216.34"] :: [UpstreamReply.err])).1 =
      ["93.184.216.34"] ∧
    (forwardToUpstream ([UpstreamReply.err, UpstreamReply.answers []] ++
        UpstreamReply.answers ["93.184.216.34"] :: [UpstreamReply.err])).2 =
      List.range ([UpstreamReply.err, UpstreamReply.answers []].length + 1) := by
  refine ⟨by decide, by decide, ?_, ?_⟩
  · exact (forwardToUpstream_firstSuccess [UpstreamReply.err, UpstreamReply.answers []]
      ["93.184.216.34"] [UpstreamReply.err] (by decide) (by decide)).1
  · exact (forwardToUpstream_firstSuccess [UpstreamReply.err, UpstreamReply.answers []]
      ["93.184.216.34"] [UpstreamReply.err] (by decide) (by decide)).2.1

/-- C4: a passthrough type-A query for which every configured upstream
fails or answers empty is replied to with an empty-but-valid message: no
answer records, response code 0 (success, never a server-failure code),
and the single reply write still happens. -/
theorem handleDNSRequest_totalUpstreamFailure (env : Env) (r : DNSMsg) (q : Question)
    (hq : r.question = [q]) (hop : r.opcode = 0) (hA : q.qtype = RType.A)
    (hnp : isProxyDomain env.proxyDomains (trimTrailingDot q.name) = false)
    (hfail : ∀ u ∈ env.upstreamFor q, failedReply u = true) :
    (handleDNSRequest env r).1.answer = [] ∧
    (handleDNSRequest env r).1.rcode = 0 ∧
    (handleDNSRequest env r).2 = 1 := by
  have hforward : (forwardToUpstream (env.upstreamFor q)).1 = [] := by
    have key := forwardAux_fails (env.upstreamFor q) hfail 0 []
    rw [List.append_nil] at key
    rw [forwardToUpstream, key]
    rfl
  simp [handleDNSRequest, setReply, hq, hop, processQuestion, hA, hnp, hforward]

/-- C4 witness: one erroring upstream and one empty-answer upstream; the
reply carries no answers. -/
theorem handleDNSRequest_totalUpstreamFailure_witness :
    (handleDNSRequest
        { proxyDomains := ["blocked.org"], endpoints := [],
          upstreamFor := fun _ => [UpstreamReply.err, UpstreamReply.answers []] }
        { id := 7, opcode := 0, rcode := 0,
          question := [{ name := "example.com.", qtype := RType.A }],
          answer := [] }).1.answer = [] ∧
    (handleDNSRequest
        { proxyDomains := ["blocked.org"], endpoints := [],
          upstreamFor := fun _ => [UpstreamReply.err, UpstreamReply.answers []] }
        { id := 7, opcode := 0, rcode := 0,
          question := [{ name := "example.com.", qtype := RType.A }],
          answer := [] }).1.rcode = 0 := by
  have h := handleDNSRequest_totalUpstreamFailure
    { proxyDomains := ["blocked.org"], endpoints := [],
      upstreamFor := fun _ => [UpstreamReply.err, UpstreamReply.answers []] }
    { id := 7, opcode := 0, rcode := 0,
      question := [{ name := "example.com.", qtype := RType.A }], answer := [] }
    { name := "example.com.", qtype := RType.A }
    rfl rfl rfl (by decide) (by decide)
  exact ⟨h.1, h.2.1⟩

/-- C5: `Authenticate` returns the cached credential untouched, with no
authentication exchange, exactly when the cached token is non-empty and
its expiry is strictly after now; otherwise it runs the exchange and
stores the fresh token with expiry `now + validityWindow` before
returning. -/
theorem Authenticate_session_cache (now : Nat) (st : AuthState) :
    (st.token ≠ "" ∧ now < st.expiresAt → Authenticate now st = ⟨st, false⟩) ∧
    (¬(st.token ≠ "" ∧ now < st.expiresAt) →
      Authenticate now st = ⟨⟨simulatedToken now, now + validityWindow⟩, true⟩) := by
  constructor
  · intro h
    rw [Authenticate, if_pos h]
  · intro h
    rw [Authenticate, if_neg h]

/-- C5 witness: a valid cached token is returned unchanged with no
exchange; an empty cache triggers the exchange and stores a full validity
window. -/
theorem Authenticate_session_cache_witness :
    Authenticate 5 ⟨"tok", 10⟩ = ⟨⟨"tok", 10⟩, false⟩ ∧
    Authenticate 5 ⟨"", 0⟩ = ⟨⟨simulatedToken 5, 5 + validityWindow⟩, true⟩ :=
  ⟨(Authenticate_session_cache 5 ⟨"tok", 10⟩).1 (by decide),
    (Authenticate_session_cache 5 ⟨"", 0⟩).2 (by decide)⟩

/-- C6: `handleProxiedDomain` contacts no worker endpoint at all — for
every ranked endpoint list (in particular a three-endpoint one whose
members would answer Blocked, TransportError and Success) the contact
trace is empty, and the appended answer is the fixed placeholder record
`<name> A 192.168.1.1`, not an answer derived from any endpoint. -/
theorem handleProxiedDomain_contacts_no_endpoint (endpoints : List String)
    (m : DNSMsg) (q : Question) :
    (handleProxiedDomain endpoints m q).2 = [] ∧
    (handleProxiedDomain endpoints m q).1 =
      { m with answer := m.answer ++ [q.name ++ " A 192.168.1.1"] } :=
  ⟨rfl, rfl⟩

/-- C7: `Authenticate` has no failure path.  Whatever the configured API
credentials — the empty (absent) pair included — and whatever the cached
state, the call returns `.ok` and never surfaces an authentication
error. -/
theorem Authenticate_never_fails (apiKey apiSecret : String) (now : Nat)
    (st : AuthState) :
    AuthenticateWithConfig apiKey apiSecret now st = .ok (Authenticate now st) :=
  rfl

/-- C8: two forced refreshes at strictly increasing times, the second
before the first token's expiry, store strictly increasing expiries; and
no forced refresh ever leaves the cleared (empty) credential in place. -/
theorem RefreshAuth_monotone_nonempty (n1 n2 : Nat) (st : AuthState)
    (h12 : n1 < n2) (hbefore : n2 < (RefreshAuth n1 st).state.expiresAt) :
    (RefreshAuth n1 st).state.expiresAt <
      (RefreshAuth n2 (RefreshAuth n1 st).state).state.expiresAt ∧
    ∀ (n : Nat) (s : AuthState), (RefreshAuth n s).state.token ≠ "" := by
  constructor
  · rw [RefreshAuth_eq n1 st, RefreshAuth_eq n2]
    simpa using h12
  · intro n s
    rw [RefreshAuth_eq n s]
    exact simulatedToken_ne_empty n

/-- C8 witness: refreshes at times 0 and 1, both inside the first token's
24-hour window; the stored expiry strictly increases. -/
theorem RefreshAuth_monotone_nonempty_witness :
    (0 : Nat) < 1 ∧
    1 < (RefreshAuth 0 ⟨"t", 100⟩).state.expiresAt ∧
    (RefreshAuth 0 ⟨"t", 100⟩).state.expiresAt <
      (RefreshAuth 1 (RefreshAuth 0 ⟨"t", 100⟩).state).state.expiresAt :=
  ⟨by decide, by decide,
    (RefreshAuth_monotone_nonempty 0 1 ⟨"t", 100⟩ (by decide) (by decide)).1⟩

/-- C10: every inbound message gets exactly one reply write; a message
none of whose questions has record type A yields no answer records; and a
single type-A query question is routed by classification either to the
proxied handler's placeholder answer or to the upstream forwarder's
records. -/
theorem handleDNSRequest_typeA_routing (env : Env) (r : DNSMsg) :
    (handleDNSRequest env r).2 = 1 ∧
    ((∀ q ∈ r.question, q.qtype ≠ RType.A) → (handleDNSRequest env r).1.answer = []) ∧
    (∀ q, r.question = [q] → r.opcode = 0 → q.qtype = RType.A →
      (handleDNSRequest env r).1.answer =
        if isProxyDomain env.proxyDomains (trimTrailingDot q.name) = true then
          [q.name ++ " A 192.168.1.1"]
        else (forwardToUpstream (env.upstreamFor q)).1) := by
  refine ⟨rfl, ?_, ?_⟩
  · intro hall
    by_cases hop : r.opcode = 0
    · cases hqs : r.question with
      | nil => simp [handleDNSRequest, setReply, hqs, hop]
      | cons q qs =>
        have hqA : q.qtype ≠ RType.A := hall q (by rw [hqs]; simp)
        simp [handleDNSRequest, setReply, hqs, hop, processQuestion, hqA]
    · simp [handleDNSRequest, setReply, hop]
  · intro q hq hop hA
    by_cases hp : isProxyDomain env.proxyDomains (trimTrailingDot q.name) = true
    · simp [handleDNSRequest, setReply, hq, hop, processQuestion, hA, hp,
        handleProxiedDomain]
    · simp [handleDNSRequest, setReply, hq, hop, processQuestion, hA, hp]

/-- C10 witness: an AAAA-only message yields an answerless reply with one
write, and a type-A passthrough question is forwarded upstream. -/
theorem handleDNSRequest_typeA_routing_witness :
    (handleDNSRequest
        { proxyDomains := [], endpoints := [], upstreamFor := fun _ => [] }
        { id := 1, opcode := 0, rcode := 0,
          question := [{ name := "example.com.", qtype := RType.AAAA }],
          answer := [] }).1.answer = [] ∧
    (handleDNSRequest
        { proxyDomains := [], endpoints := [], upstreamFor := fun _ => [] }
        { id := 1, opcode := 0, rcode := 0,
          question := [{ name := "example.com.", qtype := RType.AAAA }],
          answer := [] }).2 = 1 :=
  ⟨(handleDNSRequest_typeA_routing
      { proxyDomains := [], endpoints := [], upstreamFor := fun _ => [] }
      { id := 1, opcode := 0, rcode := 0,
        question := [{ name := "example.com.", qtype := RType.AAAA }],
        answer := [] }).2.1 (by decide),
    (handleDNSRequest_typeA_routing
      { proxyDomains := [], endpoints := [], upstreamFor := fun _ => [] }
      { id := 1, opcode := 0, rcode := 0,
        question := [{ name := "example.com.", qtype := RType.AAAA }],
        answer := [] }).1⟩

end PhantomDNS
